import Mathlib

/-!
Verification of the gnostic-models core (`gnostic-compiler` crate): a shallow
embedding of the Context/Error/Reader/Extension subsystems from
`src/crates/gnostic-compiler/src/{context,error,reader,extensions}.rs`,
followed by theorems settling the specification claims.

External collaborators (the OS filesystem, the network stack, the YAML parsing
libraries, and spawned extension-handler processes) are modelled as oracle
functions supplied in an environment record; everything the repository's own
code does — caching, reference splitting, fragment navigation, dispatch order,
error construction — is translated directly from the Rust source.
-/

namespace Gnostic

/-- Embedding of `serde_yaml::Value` (and the isomorphic `yaml_rust2::Yaml`)
restricted to the node kinds the claims exercise; `Mapping` keys are arbitrary
nodes, exactly as in `serde_yaml::Mapping`. Numbers are modelled as integers
(no claim touches floating-point values). -/
inductive Yaml where
  | null
  | bool (b : Bool)
  | num (n : Int)
  | str (s : String)
  | arr (items : List Yaml)
  | map (entries : List (Yaml × Yaml))

/-- Whether a mapping key equals `Yaml::String(key)`: true exactly for a string
node with the same content. -/
def Yaml.keyMatches (k : Yaml) (key : String) : Bool :=
  match k with
  | .str s => s == key
  | _ => false

/-- `serde_yaml::Mapping::get` with a `Yaml::String(key)` key: the value of the
first entry whose key equals the given string, as used at reader.rs:296. -/
def Yaml.mapGet (entries : List (Yaml × Yaml)) (key : String) : Option Yaml :=
  (entries.find? (fun e => Yaml.keyMatches e.1 key)).map (·.2)

/-- Embedding of `ExtensionHandler` (extensions.rs:26-29): the name of the
extension-handler binary. -/
structure ExtensionHandler where
  name : String
deriving DecidableEq, Repr

/-- Embedding of `Context` (context.rs:23-34): name, optional source position,
optional parent, and the optional extension-handler list.  `Arc` sharing is
irrelevant to the values computed, so the parent is an `Option Context`. -/
inductive Context where
  | mk (name : String) (line : Option Nat) (column : Option Nat)
       (parent : Option Context)
       (extension_handlers : Option (List ExtensionHandler))

def Context.name : Context → String
  | .mk n _ _ _ _ => n

def Context.line : Context → Option Nat
  | .mk _ l _ _ _ => l

def Context.column : Context → Option Nat
  | .mk _ _ c _ _ => c

def Context.parent : Context → Option Context
  | .mk _ _ _ p _ => p

def Context.extension_handlers : Context → Option (List ExtensionHandler)
  | .mk _ _ _ _ h => h

/-- `Context::new_with_extensions` (context.rs:38-52). -/
def Context.new_with_extensions (name : String) (line column : Option Nat)
    (parent : Option Context) (handlers : Option (List ExtensionHandler)) : Context :=
  .mk name line column parent handlers

/-- `Context::new` (context.rs:55-69): inherits the parent's handler list. -/
def Context.new (name : String) (line column : Option Nat)
    (parent : Option Context) : Context :=
  .mk name line column parent (parent.bind Context.extension_handlers)

/-- `Context::root` (context.rs:72-80). -/
def Context.root (name : String) : Context :=
  .mk name none none none none

/-- `Context::child` (context.rs:83-85). -/
def Context.child (self : Context) (name : String) : Context :=
  Context.new name none none (some self)

/-- `Context::child_with_position` (context.rs:88-95). -/
def Context.child_with_position (self : Context) (name : String)
    (line column : Nat) : Context :=
  Context.new name (some line) (some column) (some self)

/-- `Context::description` (context.rs:98-103):
`format!("{}.{}", parent.description(), self.name)` when a parent exists. -/
def Context.description : Context → String
  | .mk n _ _ none _ => n
  | .mk n _ _ (some p) _ => Context.description p ++ "." ++ n

/-- `Context::location_description` (context.rs:106-113): prefixed with
`"[line,column] "` only when both are present. -/
def Context.location_description (c : Context) : String :=
  match c.line, c.column with
  | some line, some column =>
      "[" ++ toString line ++ "," ++ toString column ++ "] " ++ c.description
  | _, _ => c.description

/-- The chain of `name` fields from the root down to this context (a
specification-side derived value used to state claims about `description`). -/
def Context.nameChain : Context → List String
  | .mk n _ _ none _ => [n]
  | .mk n _ _ (some p) _ => Context.nameChain p ++ [n]

/-- Number of ancestors of a context (the root has depth 0). -/
def Context.depth : Context → Nat
  | .mk _ _ _ none _ => 0
  | .mk _ _ _ (some p) _ => Context.depth p + 1

/-- The `.`-joined rendering of a list of names (specification-side): one `.`
separator between consecutive names, none anywhere else. -/
def dotJoined : List String → String
  | [] => ""
  | [x] => x
  | x :: y :: ys => x ++ "." ++ dotJoined (y :: ys)

/-- Number of `.` characters in a string. -/
def dotCount (s : String) : Nat :=
  s.data.count '.'

/-- Embedding of `CompilerError` (error.rs:23-52). -/
inductive CompilerError where
  | located (line column : Nat) (path message : String)
  | unlocated (path message : String)
  | simple (message : String)
  | io (message : String)
  | yamlError (message : String)
  | http (message : String)
deriving DecidableEq, Repr

/-- The `thiserror`-derived `Display` of `CompilerError` (error.rs:25-51). -/
def CompilerError.render : CompilerError → String
  | .located l c p m => "[" ++ toString l ++ "," ++ toString c ++ "] " ++ p ++ " " ++ m
  | .unlocated p m => p ++ " " ++ m
  | .simple m => m
  | .io m => "IO error: " ++ m
  | .yamlError m => "YAML error: " ++ m
  | .http m => "HTTP error: " ++ m

/-- `CompilerError::new` (error.rs:56-70). -/
def CompilerError.new (context : Context) (message : String) : CompilerError :=
  match context.line, context.column with
  | some line, some column => .located line column context.description message
  | _, _ => .unlocated context.description message

/-- `CompilerError::new_opt` (error.rs:73-78). -/
def CompilerError.new_opt (context : Option Context) (message : String) : CompilerError :=
  match context with
  | some ctx => CompilerError.new ctx message
  | none => .simple message

/-- Embedding of `ErrorGroup` (error.rs:83-85). -/
structure ErrorGroup where
  errors : List CompilerError
deriving DecidableEq, Repr

/-- `ErrorGroup::from_errors` (error.rs:94-100). -/
def ErrorGroup.from_errors (errors : List CompilerError) : Option ErrorGroup :=
  if errors.isEmpty then none else some ⟨errors⟩

/-- `ErrorGroup::is_empty` (error.rs:103-105). -/
def ErrorGroup.is_empty (g : ErrorGroup) : Bool :=
  g.errors.isEmpty

/-- `ErrorGroup::len` (error.rs:108-110). -/
def ErrorGroup.len (g : ErrorGroup) : Nat :=
  g.errors.length

/-- `ErrorGroup::push` (error.rs:113-115). -/
def ErrorGroup.push (g : ErrorGroup) (e : CompilerError) : ErrorGroup :=
  ⟨g.errors ++ [e]⟩

/-- `ErrorGroup::extend` (error.rs:118-120). -/
def ErrorGroup.extend (g other : ErrorGroup) : ErrorGroup :=
  ⟨g.errors ++ other.errors⟩

/-- `ErrorGroup::into_result` (error.rs:123-129). -/
def ErrorGroup.into_result (g : ErrorGroup) : Except ErrorGroup Unit :=
  if g.errors.isEmpty then .ok () else .error g

/-! ## Resource Reader & Cache (reader.rs)

The two process-wide caches and the enabled flags become fields of an explicit
`ReaderState`; the filesystem, the HTTP stack (`fetch_url_async`, reader.rs:
170-191, including its HTTPS rejection) and the YAML parser
(`std::str::from_utf8` + `serde_yaml::from_str`) are oracles in `Env`.
`fetch_count` counts consultations of the underlying resource (filesystem read
or network fetch) and `parse_count` counts YAML parses, so that
"without re-fetching / re-parsing" is provable. -/

/-- Split a character list at every occurrence of `sep`, keeping empty groups:
the semantics of Rust's `str::split(char)`. -/
def splitOnChar (sep : Char) : List Char → List (List Char)
  | [] => [[]]
  | c :: rest =>
      let r := splitOnChar sep rest
      if c = sep then [] :: r
      else
        match r with
        | [] => [[c]]
        | g :: gs => (c :: g) :: gs

/-- Rust's `str::split(char)` on a string. -/
def strSplitOnChar (sep : Char) (s : String) : List String :=
  (splitOnChar sep s.data).map String.mk

/-- Split a character list at the first occurrence of `sep`, when present:
the semantics of Rust's `str::splitn(2, char)`. -/
def splitFirstChar (sep : Char) : List Char → List Char × Option (List Char)
  | [] => ([], none)
  | c :: rest =>
      if c = sep then ([], some rest)
      else
        let r := splitFirstChar sep rest
        (c :: r.1, r.2)

/-- Join character-list groups with `sep` between consecutive groups. -/
def intercalateChar (sep : Char) : List (List Char) → List Char
  | [] => []
  | [x] => x
  | x :: y :: ys => x ++ sep :: intercalateChar sep (y :: ys)

/-- A validity check for a URL scheme: a letter followed by
letters/digits/`+`/`-`/`.`, as in RFC 3986 and the `url` crate. -/
def validSchemeChars : List Char → Bool
  | [] => false
  | c :: rest => c.isAlpha && rest.all (fun d => d.isAlphanum || d == '+' || d == '-' || d == '.')

/-- Models `url::Url::parse(s).is_ok()` (reader.rs:196, 266) on the locator
strings of interest: success exactly when a valid scheme precedes a `:`.
(The `url` crate additionally validates the remainder of the string; no claim
depends on an input with a valid scheme but malformed remainder.) -/
def url_parse_ok (s : String) : Bool :=
  match splitFirstChar ':' s.data with
  | (p, some _) => validSchemeChars p
  | _ => false

/-- Models the reader.rs:196-199 test: the locator parses as a URL whose
scheme is `http` or `https` (the `url` crate lowercases the scheme). -/
def is_http_url (s : String) : Bool :=
  match splitFirstChar ':' s.data with
  | (p, some _) =>
      validSchemeChars p &&
        (let lp := p.map Char.toLower
         lp == "http".data || lp == "https".data)
  | _ => false

/-- Models `Path::new(p).parent().map(to_string_lossy).unwrap_or_default()`
(reader.rs:270-273): the string before the final `/`, `""` when there is no
`/`, and `"/"` for a file directly under the root.  Faithful for locators
whose final component is nonempty (no trailing slash) — the only ones the
reader is given. -/
def path_parent (p : String) : String :=
  match splitOnChar '/' p.data with
  | [] => ""
  | [_] => ""
  | comps =>
      let d := intercalateChar '/' comps.dropLast
      if d = [] then "/" else String.mk d

/-- `reference.splitn(2, '#')` (reader.rs:263): the part before the first `#`,
and the remainder after it when a `#` is present. -/
def splitRefOnHash (r : String) : String × Option String :=
  let p := splitFirstChar '#' r.data
  (String.mk p.1, p.2.map String.mk)

/-- The locator computed at reader.rs:264-282: an absolute URL is used as-is;
otherwise a non-empty file part is joined to the base locator's directory
component with `/` (or used unchanged when that component is empty); an empty
file part resolves to the base locator. -/
def resolve_ref_locator (basefile p0 : String) : String :=
  if p0 = "" then basefile
  else if url_parse_ok p0 then p0
  else
    let basedir := path_parent basefile
    if basedir = "" then p0 else basedir ++ "/" ++ p0

/-- Lookup in a cache, modelling `HashMap::get`. -/
def cacheLookup {α : Type} (k : String) (c : List (String × α)) : Option α :=
  (c.find? (fun e => e.1 == k)).map (·.2)

/-- Insert in a cache, modelling `HashMap::insert` (replaces the key's entry). -/
def cacheInsert {α : Type} (k : String) (v : α) (c : List (String × α)) : List (String × α) :=
  (k, v) :: c.filter (fun e => !(e.1 == k))

/-- Removal from a cache, modelling `HashMap::remove`. -/
def cacheErase {α : Type} (k : String) (c : List (String × α)) : List (String × α) :=
  c.filter (fun e => !(e.1 == k))

/-- The process-wide reader state (reader.rs:27-39) made explicit: the two
caches, their enabled flags, and two instrumentation counters. -/
structure ReaderState where
  file_cache : List (String × List Nat)
  info_cache : List (String × Yaml)
  file_cache_enabled : Bool
  info_cache_enabled : Bool
  fetch_count : Nat
  parse_count : Nat

/-- Record one consultation of the underlying resource (file or network). -/
def ReaderState.bumpFetch (s : ReaderState) : ReaderState :=
  { s with fetch_count := s.fetch_count + 1 }

/-- Record one YAML parse. -/
def ReaderState.bumpParse (s : ReaderState) : ReaderState :=
  { s with parse_count := s.parse_count + 1 }

/-- The external world: filesystem reads (`std::fs::read`, reader.rs:203,
errors carry the OS message), network fetches (`fetch_url_async`,
reader.rs:170-191, whose errors are already `CompilerError` values built
there), and YAML parsing (`from_utf8` + `serde_yaml::from_str`,
reader.rs:225-228). -/
structure Env where
  fs : String → Except String (List Nat)
  net : String → Except CompilerError (List Nat)
  parse : List Nat → Except CompilerError Yaml

/-- `enable_file_cache` (reader.rs:42-44). -/
def enable_file_cache (s : ReaderState) : ReaderState :=
  { s with file_cache_enabled := true }

/-- `disable_file_cache` (reader.rs:47-49). -/
def disable_file_cache (s : ReaderState) : ReaderState :=
  { s with file_cache_enabled := false }

/-- `enable_info_cache` (reader.rs:52-54). -/
def enable_info_cache (s : ReaderState) : ReaderState :=
  { s with info_cache_enabled := true }

/-- `disable_info_cache` (reader.rs:57-59). -/
def disable_info_cache (s : ReaderState) : ReaderState :=
  { s with info_cache_enabled := false }

/-- `remove_from_file_cache` (reader.rs:67-71): removal happens only when the
file-cache flag is set. -/
def remove_from_file_cache (s : ReaderState) (fileurl : String) : ReaderState :=
  if s.file_cache_enabled then { s with file_cache := cacheErase fileurl s.file_cache } else s

/-- `remove_from_info_cache` (reader.rs:74-78): removal happens only when the
info-cache flag is set. -/
def remove_from_info_cache (s : ReaderState) (filename : String) : ReaderState :=
  if s.info_cache_enabled then { s with info_cache := cacheErase filename s.info_cache } else s

/-- `clear_file_cache` (reader.rs:81-83): unconditional. -/
def clear_file_cache (s : ReaderState) : ReaderState :=
  { s with file_cache := [] }

/-- `clear_info_cache` (reader.rs:86-88): unconditional. -/
def clear_info_cache (s : ReaderState) : ReaderState :=
  { s with info_cache := [] }

/-- `clear_caches` (reader.rs:91-94). -/
def clear_caches (s : ReaderState) : ReaderState :=
  clear_info_cache (clear_file_cache s)

/-- `fetch_file` (reader.rs:102-135): consult the byte cache when enabled,
otherwise fetch over the network and store the result when enabled. -/
def fetch_file (env : Env) (s : ReaderState) (fileurl : String) :
    Except CompilerError (List Nat) × ReaderState :=
  match (if s.file_cache_enabled then cacheLookup fileurl s.file_cache else none) with
  | some bytes => (.ok bytes, s)
  | none =>
      match env.net fileurl with
      | .error e => (.error e, s.bumpFetch)
      | .ok bytes =>
          (.ok bytes,
           if s.file_cache_enabled then
             { s.bumpFetch with file_cache := cacheInsert fileurl bytes s.file_cache }
           else s.bumpFetch)

/-- `read_bytes_for_file` (reader.rs:194-204): HTTP/HTTPS locators go through
`fetch_file`, everything else is read from the filesystem directly (no byte
cache on that path). -/
def read_bytes_for_file (env : Env) (s : ReaderState) (filename : String) :
    Except CompilerError (List Nat) × ReaderState :=
  if is_http_url filename then fetch_file env s filename
  else
    match env.fs filename with
    | .ok bytes => (.ok bytes, s.bumpFetch)
    | .error msg =>
        (.error (.io ("Failed to read " ++ filename ++ ": " ++ msg)), s.bumpFetch)

/-- `read_info_from_bytes` (reader.rs:207-236): consult/populate the parsed
cache keyed by `filename`, skipped when the flag is off or the locator is
empty. -/
def read_info_from_bytes (env : Env) (s : ReaderState) (filename : String)
    (bytes : List Nat) : Except CompilerError Yaml × ReaderState :=
  match (if s.info_cache_enabled ∧ filename ≠ "" then
           cacheLookup filename s.info_cache
         else none) with
  | some info => (.ok info, s)
  | none =>
      match env.parse bytes with
      | .error e => (.error e, s.bumpParse)
      | .ok yaml =>
          (.ok yaml,
           if s.info_cache_enabled ∧ filename ≠ "" then
             { s.bumpParse with info_cache := cacheInsert filename yaml s.info_cache }
           else s.bumpParse)

/-- `read_info_for_file` (reader.rs:239-242). -/
def read_info_for_file (env : Env) (s : ReaderState) (filename : String) :
    Except CompilerError Yaml × ReaderState :=
  match read_bytes_for_file env s filename with
  | (.error e, s1) => (.error e, s1)
  | (.ok bytes, s1) => read_info_from_bytes env s1 filename bytes

/-- The two ways the fragment-navigation loop (reader.rs:292-314) fails:
a mapping that lacks the requested key, or a non-mapping node. -/
inductive NavFail where
  | missingKey
  | notMapping
deriving DecidableEq, Repr

/-- The fragment-navigation loop of reader.rs:292-314: iterate over the
`/`-separated segments with their index, and for every segment at index > 0
that is nonempty, descend through the current mapping. -/
def navFrom (i : Nat) (segs : List String) (info : Yaml) : Except NavFail Yaml :=
  match segs with
  | [] => .ok info
  | key :: rest =>
      if i > 0 ∧ key ≠ "" then
        match info with
        | .map m =>
            match Yaml.mapGet m key with
            | some v => navFrom (i + 1) rest v
            | none => .error .missingKey
        | _ => .error .notMapping
      else navFrom (i + 1) rest info

/-- Navigation of a whole fragment, starting the loop at index 0 as the
source's `enumerate()` does. -/
def navigateFragment (frag : String) (info : Yaml) : Except NavFail Yaml :=
  navFrom 0 (strSplitOnChar '/' frag) info

/-- `read_info_for_ref` (reader.rs:245-323): cache check under the raw
reference, locator resolution, fetch + parse, fragment navigation, and the
final cache store.  A missing key caches `Yaml.null` under the reference
before failing; a non-mapping node fails without caching. -/
def read_info_for_ref (env : Env) (s : ReaderState) (basefile reference : String) :
    Except CompilerError Yaml × ReaderState :=
  match (if s.info_cache_enabled then cacheLookup reference s.info_cache else none) with
  | some info => (.ok info, s)
  | none =>
      let parts := splitRefOnHash reference
      let filename := resolve_ref_locator basefile parts.1
      match read_bytes_for_file env s filename with
      | (.error e, s1) => (.error e, s1)
      | (.ok bytes, s1) =>
          match read_info_from_bytes env s1 filename bytes with
          | (.error e, s2) => (.error e, s2)
          | (.ok info0, s2) =>
              let navRes : Except NavFail Yaml :=
                match parts.2 with
                | some frag => if frag ≠ "" then navigateFragment frag info0 else .ok info0
                | none => .ok info0
              match navRes with
              | .ok info =>
                  (.ok info,
                   if s.info_cache_enabled then
                     { s2 with info_cache := cacheInsert reference info s2.info_cache }
                   else s2)
              | .error .missingKey =>
                  (.error (.simple ("could not resolve " ++ reference)),
                   if s.info_cache_enabled then
                     { s2 with info_cache := cacheInsert reference Yaml.null s2.info_cache }
                   else s2)
              | .error .notMapping =>
                  (.error (.simple ("could not resolve " ++ reference)), s2)

/-! ## Extension Pipeline (extensions.rs)

The spawned handler process is an oracle: given the handler's binary name, the
node and the extension name, it reports either an I/O-level failure at one of
the three interaction points, or the process exit (status, stdout, stderr). -/

/-- Outcome of running one external handler process. -/
inductive ProcOutcome where
  | spawnFailed (e : String)
  | writeFailed (e : String)
  | waitFailed (e : String)
  | exited (success : Bool) (stdout : List Nat) (stderr : String)

/-- `ExtensionHandler::handle` (extensions.rs:38-97): an empty handler name
declines without spawning; otherwise the process is run, a non-success exit
is a hard failure carrying stderr, an empty stdout is a decline, and a
non-empty stdout is the handled payload. -/
def ExtensionHandler.handle (run : String → Yaml → String → ProcOutcome)
    (h : ExtensionHandler) (node : Yaml) (extension_name : String) :
    Except CompilerError (Option (List Nat)) :=
  if h.name = "" then .ok none
  else
    match run h.name node extension_name with
    | .spawnFailed e =>
        .error (.io ("Failed to spawn extension handler " ++ h.name ++ ": " ++ e))
    | .writeFailed e => .error (.io ("Failed to write to extension handler: " ++ e))
    | .waitFailed e => .error (.io ("Failed to get extension handler output: " ++ e))
    | .exited success stdout stderr =>
        if success = false then
          .error (.simple ("Extension handler " ++ h.name ++ " failed: " ++ stderr))
        else if stdout.isEmpty then .ok none
        else .ok (some stdout)

/-- The `for handler in handlers.iter()` loop of `call_extension`
(extensions.rs:111-116), instrumented with the number of `handle`
invocations performed. -/
def call_extension_go (run : String → Yaml → String → ProcOutcome) (node : Yaml)
    (extension_name : String) :
    List ExtensionHandler → Except CompilerError (Bool × Option (List Nat)) × Nat
  | [] => (.ok (false, none), 0)
  | h :: rest =>
      match ExtensionHandler.handle run h node extension_name with
      | .error e => (.error e, 1)
      | .ok (some response) => (.ok (true, some response), 1)
      | .ok none =>
          let r := call_extension_go run node extension_name rest
          (r.1, r.2 + 1)

/-- `call_extension` (extensions.rs:101-119): no configured handler list means
`(false, none)`; otherwise the handlers are tried in order. The second
component counts `handle` invocations. -/
def call_extension (run : String → Yaml → String → ProcOutcome) (context : Context)
    (node : Yaml) (extension_name : String) :
    Except CompilerError (Bool × Option (List Nat)) × Nat :=
  match context.extension_handlers with
  | none => (.ok (false, none), 0)
  | some handlers => call_extension_go run node extension_name handlers

/-- `get_extension_handlers` (extensions.rs:122-124). -/
def get_extension_handlers (context : Context) : Option (List ExtensionHandler) :=
  context.extension_handlers

/-! ## Specification-side derived definitions and concrete examples -/

/-- Specification-side description of fragment navigation once the first
segment is out of the way: descend through every nonempty segment, with no
index bookkeeping.  Compared against `navFrom` to settle how the loop treats
the first segment. -/
def navSegsAfterFirst : List String → Yaml → Except NavFail Yaml
  | [], info => .ok info
  | key :: rest, info =>
      if key ≠ "" then
        match info with
        | .map m =>
            match Yaml.mapGet m key with
            | some v => navSegsAfterFirst rest v
            | none => .error .missingKey
        | _ => .error .notMapping
      else navSegsAfterFirst rest info

/-- A concrete external world used by witnesses and counterexamples:
`a.yaml` parses to `{defs: "x"}`, `dir/b.yaml` to `{defs: {Widget: "w"}}`,
`b.yaml` to `{Widget: "w-top"}`; bytes `[5]`/`[6]` parse to the scalars
`"five"`/`"six"`; the network is unreachable. -/
def exEnv : Env where
  fs := fun name =>
    if name = "a.yaml" then .ok [7]
    else if name = "dir/b.yaml" then .ok [2]
    else if name = "b.yaml" then .ok [1]
    else .error "No such file or directory (os error 2)"
  net := fun u => .error (.http ("Failed to fetch " ++ u ++ ": offline"))
  parse := fun bytes =>
    if bytes = [7] then .ok (.map [(.str "defs", .str "x")])
    else if bytes = [2] then .ok (.map [(.str "defs", .map [(.str "Widget", .str "w")])])
    else if bytes = [1] then .ok (.map [(.str "Widget", .str "w-top")])
    else if bytes = [5] then .ok (.str "five")
    else if bytes = [6] then .ok (.str "six")
    else .error (.yamlError "invalid document")

/-- The reader's start state: empty caches, both caches enabled (the flags'
initial values, reader.rs:33-36), counters at zero. -/
def exState : ReaderState :=
  { file_cache := [], info_cache := [],
    file_cache_enabled := true, info_cache_enabled := true,
    fetch_count := 0, parse_count := 0 }

/-- A reader state with both cache flags off and nonempty caches, used to
witness the frame property of the conditional removal operations. -/
def exStateDisabled : ReaderState :=
  { file_cache := [("a.yaml", [7])], info_cache := [("a.yaml", .str "x")],
    file_cache_enabled := false, info_cache_enabled := false,
    fetch_count := 0, parse_count := 0 }

/-- A process oracle for the extension pipeline: handler `h1` exits cleanly
with empty stdout (a decline), handler `h2` exits cleanly printing bytes
`[1,2,3]`. -/
def exRun : String → Yaml → String → ProcOutcome := fun name _ _ =>
  if name = "h2" then .exited true [1, 2, 3] ""
  else .exited true [] ""

/-- A context whose handler list holds `h1` then `h2`, in that order. -/
def exExtContext : Context :=
  .mk "root" none none none (some [⟨"h1"⟩, ⟨"h2"⟩])

/-- A context with no handler list configured. -/
def exNoHandlerContext : Context :=
  .mk "root" none none none none

/-! ## Helper lemmas -/

theorem nameChain_ne_nil (c : Context) : c.nameChain ≠ [] := by
  match c with
  | .mk n l col none h => simp [Context.nameChain]
  | .mk n l col (some p) h => simp [Context.nameChain]

theorem dotJoined_append (xs : List String) (n : String) (h : xs ≠ []) :
    dotJoined (xs ++ [n]) = dotJoined xs ++ "." ++ n := by
  induction xs with
  | nil => exact absurd rfl h
  | cons x xs ih =>
      cases xs with
      | nil => simp [dotJoined]
      | cons y ys =>
          have ih' := ih (by simp)
          rw [List.cons_append] at ih'
          simp only [List.cons_append, List.append_eq, dotJoined]
          rw [ih']
          simp [String.append_assoc]

theorem description_eq_dotJoined (c : Context) :
    c.description = dotJoined c.nameChain := by
  match c with
  | .mk n l col none h => simp [Context.description, Context.nameChain, dotJoined]
  | .mk n l col (some p) h =>
      have ih := description_eq_dotJoined p
      simp only [Context.description, Context.nameChain]
      rw [dotJoined_append _ _ (nameChain_ne_nil p), ih]

theorem nameChain_length_eq (c : Context) : c.nameChain.length = c.depth + 1 := by
  match c with
  | .mk n l col none h => simp [Context.nameChain, Context.depth]
  | .mk n l col (some p) h =>
      have ih := nameChain_length_eq p
      simp [Context.nameChain, Context.depth, ih]

theorem dotCount_append (a b : String) : dotCount (a ++ b) = dotCount a + dotCount b := by
  cases a with
  | mk la =>
      cases b with
      | mk lb =>
          show ((String.mk la ++ String.mk lb).data.count '.') = _
          have : (String.mk la ++ String.mk lb) = String.mk (la ++ lb) := rfl
          rw [this]
          simp [dotCount, List.count_append]

theorem dotJoined_dotCount (l : List String) (h : l ≠ [])
    (hall : ∀ s ∈ l, dotCount s = 0) :
    dotCount (dotJoined l) = l.length - 1 := by
  induction l with
  | nil => exact absurd rfl h
  | cons x xs ih =>
      cases xs with
      | nil => simpa [dotJoined] using hall x (by simp)
      | cons y ys =>
          have hx := hall x (by simp)
          have hrest : ∀ s ∈ y :: ys, dotCount s = 0 := fun s hs => hall s (by simp [hs])
          have ihr := ih (by simp) hrest
          simp only [dotJoined, dotCount_append, hx, ihr]
          have hdot : dotCount "." = 1 := rfl
          simp [hdot]
          omega

/-! ## Claim theorems -/

/-- C6: `ErrorGroup.from_errors` returns `none` exactly on the empty list,
otherwise a group with the same errors in the same order (hence the same
length); `ErrorGroup.into_result` succeeds exactly when the group is empty. -/
theorem errorGroup_from_errors_into_result_spec (l : List CompilerError) (g : ErrorGroup) :
    (ErrorGroup.from_errors l = none ↔ l = [])
    ∧ (∀ g', ErrorGroup.from_errors l = some g' → g'.errors = l ∧ g'.len = l.length)
    ∧ (g.into_result = .ok () ↔ g.is_empty = true) := by
  refine ⟨?_, ?_, ?_⟩
  · unfold ErrorGroup.from_errors
    split <;> simp_all [List.isEmpty_iff]
  · intro g' hg'
    unfold ErrorGroup.from_errors at hg'
    split at hg'
    · exact absurd hg' (by simp)
    · cases hg'
      exact ⟨rfl, rfl⟩
  · unfold ErrorGroup.into_result ErrorGroup.is_empty
    split <;> simp_all

/-- C6 witness: the theorem applied to a concrete one-error list and the empty
group. -/
theorem errorGroup_from_errors_witness :
    ErrorGroup.errors ⟨[CompilerError.simple "x"]⟩ = [CompilerError.simple "x"]
    ∧ ErrorGroup.into_result ⟨[]⟩ = .ok () := by
  have h := errorGroup_from_errors_into_result_spec [CompilerError.simple "x"] ⟨[]⟩
  exact ⟨(h.2.1 ⟨[CompilerError.simple "x"]⟩ rfl).1, h.2.2.mpr rfl⟩

/-- C7: for every `Context`, `description` is the `.`-joined chain of `name`
fields from the root (a chain of `depth + 1` names, so `depth` separators);
when no name itself contains a `.`, the rendered string contains exactly
`depth` occurrences of `.`. -/
theorem context_description_dot_chain (c : Context) :
    c.description = dotJoined c.nameChain
    ∧ c.nameChain.length = c.depth + 1
    ∧ ((∀ s ∈ c.nameChain, dotCount s = 0) → dotCount c.description = c.depth) := by
  refine ⟨description_eq_dotJoined c, nameChain_length_eq c, fun h => ?_⟩
  rw [description_eq_dotJoined c,
      dotJoined_dotCount _ (nameChain_ne_nil c) h, nameChain_length_eq c]
  omega

/-- C7 witness: a depth-2 chain `root.a.b` has exactly 2 dots. -/
theorem context_description_dot_chain_witness :
    dotCount (((Context.root "root").child "a").child "b").description
      = (((Context.root "root").child "a").child "b").depth := by
  exact (context_description_dot_chain (((Context.root "root").child "a").child "b")).2.2
    (by decide)

/-- C8 counterexample: a context with a line but no column renders
`location_description` equal to `description` (no `[line,col]` prefix), though
"at least one of line or column is present". -/
theorem location_description_mixed_counterexample :
    (Context.mk "x" (some 1) none none none).location_description
      = (Context.mk "x" (some 1) none none none).description
    ∧ (Context.mk "x" (some 1) none none none).line ≠ none := by
  exact ⟨rfl, by simp [Context.line]⟩

/-- C8 (amended): `location_description` equals
`"[line,column] " ++ description` (and so differs from `description`) exactly
when line and column are BOTH present; in every other case — both absent or
only one present — it equals `description`. -/
theorem location_description_spec (c : Context) :
    (∀ l col, c.line = some l → c.column = some col →
        c.location_description
          = "[" ++ toString l ++ "," ++ toString col ++ "] " ++ c.description
        ∧ c.location_description ≠ c.description)
    ∧ ((c.line = none ∨ c.column = none) → c.location_description = c.description) := by
  constructor
  · intro l col hl hc
    have hld : c.location_description
        = "[" ++ toString l ++ "," ++ toString col ++ "] " ++ c.description := by
      unfold Context.location_description
      rw [hl, hc]
    refine ⟨hld, ?_⟩
    rw [hld]
    intro heq
    have hlen := congrArg String.length heq
    simp only [String.length_append] at hlen
    have h1 : ("[" : String).length = 1 := rfl
    omega
  · intro h
    have hno : ¬ ∃ l col, c.line = some l ∧ c.column = some col := by
      rintro ⟨l, col, hl, hc⟩
      rcases h with h' | h' <;> simp_all
    unfold Context.location_description
    cases hl : c.line with
    | none => cases hc : c.column <;> rfl
    | some l =>
        cases hc : c.column with
        | none => rfl
        | some col => exact absurd ⟨l, col, hl, hc⟩ hno

/-- C8 witness: the amended theorem at a context carrying line 10, column 5
(matching the test at context.rs:143-144). -/
theorem location_description_spec_witness :
    (Context.mk "test" (some 10) (some 5) none none).location_description = "[10,5] test" := by
  have h := (location_description_spec (Context.mk "test" (some 10) (some 5) none none)).1
    10 5 rfl rfl
  rw [h.1]
  rfl

/-- C10: with the corresponding enabled flag false, `remove_from_file_cache`
and `remove_from_info_cache` leave the whole state unchanged for every
locator, while `clear_file_cache` and `clear_info_cache` empty their cache
unconditionally (touching nothing else). -/
theorem cache_remove_disabled_frame (s : ReaderState) (loc : String) :
    (s.file_cache_enabled = false → remove_from_file_cache s loc = s)
    ∧ (s.info_cache_enabled = false → remove_from_info_cache s loc = s)
    ∧ (clear_file_cache s).file_cache = []
    ∧ (clear_file_cache s).info_cache = s.info_cache
    ∧ (clear_info_cache s).info_cache = []
    ∧ (clear_info_cache s).file_cache = s.file_cache := by
  refine ⟨fun h => ?_, fun h => ?_, rfl, rfl, rfl, rfl⟩
  · simp [remove_from_file_cache, h]
  · simp [remove_from_info_cache, h]

/-- C10 witness: on a state with both flags off and nonempty caches, both
removal operations are the identity. -/
theorem cache_remove_disabled_frame_witness :
    remove_from_file_cache exStateDisabled "a.yaml" = exStateDisabled
    ∧ remove_from_info_cache exStateDisabled "a.yaml" = exStateDisabled := by
  exact ⟨(cache_remove_disabled_frame exStateDisabled "a.yaml").1 rfl,
         (cache_remove_disabled_frame exStateDisabled "a.yaml").2.1 rfl⟩

theorem call_extension_go_all_decline (run : String → Yaml → String → ProcOutcome)
    (node : Yaml) (ext : String) :
    ∀ hs : List ExtensionHandler,
      (∀ h' ∈ hs, ExtensionHandler.handle run h' node ext = .ok none) →
      call_extension_go run node ext hs = (.ok (false, none), hs.length) := by
  intro hs
  induction hs with
  | nil => intro _; rfl
  | cons h rest ih =>
      intro hall
      have hh := hall h (by simp)
      simp [call_extension_go, hh, ih (fun h' hm => hall h' (by simp [hm]))]

theorem call_extension_go_first_payload (run : String → Yaml → String → ProcOutcome)
    (node : Yaml) (ext : String) (payload : List Nat) :
    ∀ (pre : List ExtensionHandler) (h : ExtensionHandler) (post : List ExtensionHandler),
      (∀ h' ∈ pre, ExtensionHandler.handle run h' node ext = .ok none) →
      ExtensionHandler.handle run h node ext = .ok (some payload) →
      call_extension_go run node ext (pre ++ h :: post)
        = (.ok (true, some payload), pre.length + 1) := by
  intro pre
  induction pre with
  | nil => intro h post _ hh; simp [call_extension_go, hh]
  | cons p rest ih =>
      intro h post hall hh
      have hp := hall p (by simp)
      simp [call_extension_go, hp,
            ih h post (fun h' hm => hall h' (by simp [hm])) hh]

/-- C5: with no handler list configured, `call_extension` returns
`(false, none)` invoking nothing; with a list, handlers run in configured
order, the first non-empty payload short-circuits (exactly the declining
prefix plus that handler are invoked), a handler yielding no output is
declined and the next one tried, and if all decline the result is
`(false, none)` after invoking them all. -/
theorem call_extension_dispatch (run : String → Yaml → String → ProcOutcome)
    (node : Yaml) (extension_name : String) :
    (∀ c : Context, c.extension_handlers = none →
        call_extension run c node extension_name = (.ok (false, none), 0))
    ∧ (∀ (c : Context) (hs pre post : List ExtensionHandler) (h : ExtensionHandler)
          (payload : List Nat),
        c.extension_handlers = some hs → hs = pre ++ h :: post →
        (∀ h' ∈ pre, ExtensionHandler.handle run h' node extension_name = .ok none) →
        ExtensionHandler.handle run h node extension_name = .ok (some payload) →
        call_extension run c node extension_name
          = (.ok (true, some payload), pre.length + 1))
    ∧ (∀ (c : Context) (hs : List ExtensionHandler),
        c.extension_handlers = some hs →
        (∀ h' ∈ hs, ExtensionHandler.handle run h' node extension_name = .ok none) →
        call_extension run c node extension_name = (.ok (false, none), hs.length)) := by
  refine ⟨?_, ?_, ?_⟩
  · intro c hc
    simp [call_extension, hc]
  · intro c hs pre post h payload hc hsplit hdecl hh
    rw [call_extension, hc]
    rw [hsplit]
    exact call_extension_go_first_payload run node extension_name payload pre h post hdecl hh
  · intro c hs hc hall
    rw [call_extension, hc]
    exact call_extension_go_all_decline run node extension_name hs hall

/-- C5 witness: handlers `[h1, h2]` where `h1` exits with empty output and
`h2` prints `[1,2,3]`: the call is handled with payload `[1,2,3]` after
invoking both, `h1`'s decline not short-circuiting. -/
theorem call_extension_dispatch_witness :
    call_extension exRun exExtContext Yaml.null "x-sample" = (.ok (true, some [1, 2, 3]), 2) :=
  (call_extension_dispatch exRun Yaml.null "x-sample").2.1 exExtContext
    [⟨"h1"⟩, ⟨"h2"⟩] [⟨"h1"⟩] [] ⟨"h2"⟩ [1, 2, 3] rfl rfl
    (by intro h' hm; simp at hm; subst hm; rfl) rfl

theorem navFrom_pos :
    ∀ (segs : List String) (i : Nat) (info : Yaml), 0 < i →
      navFrom i segs info = navSegsAfterFirst segs info := by
  intro segs
  induction segs with
  | nil => intro i info _; rfl
  | cons k rest ih =>
      intro i info hi
      unfold navFrom navSegsAfterFirst
      by_cases hk : k = ""
      · simp [hk]
        exact ih (i + 1) info (by omega)
      · simp [hk, hi]
        cases info with
        | map m =>
            cases hg : Yaml.mapGet m k with
            | none => simp [hg]
            | some v => simpa [hg] using ih (i + 1) v (by omega)
        | null => rfl
        | bool b => rfl
        | num n => rfl
        | str s => rfl
        | arr l => rfl

/-- C9: the fragment-navigation loop skips the first `/`-separated segment
unconditionally — its content is never looked up, and the remaining segments
are what gets resolved; concretely, reference `b.yaml#defs/Widget` (no leading
slash) resolves `Widget` against the top-level mapping of `b.yaml` even when
that mapping has no `defs` key at all. -/
theorem fragment_first_segment_skipped :
    (∀ (info : Yaml) (k : String) (ks : List String),
        navFrom 0 (k :: ks) info = navSegsAfterFirst ks info)
    ∧ (read_info_for_ref exEnv exState "a.yaml" "b.yaml#defs/Widget").1
        = .ok (.str "w-top") := by
  constructor
  · intro info k ks
    have h0 : navFrom 0 (k :: ks) info = navFrom 1 ks info := by
      conv_lhs => unfold navFrom
      simp
    rw [h0]
    exact navFrom_pos ks 1 info (by omega)
  · rfl

/-- C3: a non-empty, non-URL file part resolves to
`directory-of-base ++ "/" ++ file-part` (or the file part unchanged when the
base has no directory component); an empty file part resolves to the base
locator.  Concretely, base `dir/a.yaml` with `b.yaml#/defs/Widget` reads
`dir/b.yaml` and returns the node at `defs.Widget`, and `#/defs` against base
`a.yaml` reads the base document itself. -/
theorem resolve_ref_locator_spec (basefile p0 : String) :
    (p0 ≠ "" → url_parse_ok p0 = false →
        resolve_ref_locator basefile p0
          = (if path_parent basefile = "" then p0
             else path_parent basefile ++ "/" ++ p0))
    ∧ resolve_ref_locator basefile "" = basefile
    ∧ resolve_ref_locator "dir/a.yaml" "b.yaml" = "dir/b.yaml"
    ∧ (read_info_for_ref exEnv exState "dir/a.yaml" "b.yaml#/defs/Widget").1
        = .ok (.str "w")
    ∧ (read_info_for_ref exEnv exState "a.yaml" "#/defs").1 = .ok (.str "x") := by
  refine ⟨fun hne hurl => ?_, ?_, rfl, rfl, rfl⟩
  · simp [resolve_ref_locator, hne, hurl]
  · simp [resolve_ref_locator]

/-- C3 witness: the general resolution rule applied to base `dir/a.yaml` and
file part `b.yaml`. -/
theorem resolve_ref_locator_spec_witness :
    resolve_ref_locator "dir/a.yaml" "b.yaml"
      = (if path_parent "dir/a.yaml" = "" then "b.yaml"
         else path_parent "dir/a.yaml" ++ "/" ++ "b.yaml") :=
  (resolve_ref_locator_spec "dir/a.yaml" "b.yaml").1 (by decide) rfl

theorem cacheLookup_insert_self {α : Type} (k : String) (v : α) (c : List (String × α)) :
    cacheLookup k (cacheInsert k v c) = some v := by
  simp [cacheLookup, cacheInsert]

theorem fetch_file_info_fields (env : Env) (s : ReaderState) (u : String) :
    ((fetch_file env s u).2).info_cache_enabled = s.info_cache_enabled
    ∧ ((fetch_file env s u).2).info_cache = s.info_cache := by
  unfold fetch_file
  split
  · exact ⟨rfl, rfl⟩
  · split
    · exact ⟨rfl, rfl⟩
    · split <;> exact ⟨rfl, rfl⟩

theorem read_bytes_for_file_info_fields (env : Env) (s : ReaderState) (f : String) :
    ((read_bytes_for_file env s f).2).info_cache_enabled = s.info_cache_enabled
    ∧ ((read_bytes_for_file env s f).2).info_cache = s.info_cache := by
  unfold read_bytes_for_file
  split
  · exact fetch_file_info_fields env s f
  · split <;> exact ⟨rfl, rfl⟩

theorem read_info_from_bytes_info_enabled (env : Env) (s : ReaderState)
    (f : String) (b : List Nat) :
    ((read_info_from_bytes env s f b).2).info_cache_enabled = s.info_cache_enabled := by
  unfold read_info_from_bytes
  split
  · rfl
  · split
    · rfl
    · split <;> rfl

/-- C4 (amended): with the info cache enabled and a NON-EMPTY locator `L`,
after a successful `read_info_from_bytes(L, B)`, a second call with the same
`L` — any bytes, even under a different parsing oracle — returns the first
call's parsed node and leaves the state (in particular `parse_count`)
untouched: no re-parse occurs. -/
theorem read_info_from_bytes_cache_roundtrip
    (env env2 : Env) (s : ReaderState) (L : String) (B B2 : List Nat)
    (v : Yaml) (s1 : ReaderState)
    (hen : s.info_cache_enabled = true) (hL : L ≠ "")
    (h1 : read_info_from_bytes env s L B = (.ok v, s1)) :
    read_info_from_bytes env2 s1 L B2 = (.ok v, s1) := by
  have hcond : s.info_cache_enabled = true ∧ L ≠ "" := ⟨hen, hL⟩
  cases hc : cacheLookup L s.info_cache with
  | some info =>
      have e : read_info_from_bytes env s L B = (.ok info, s) := by
        unfold read_info_from_bytes
        rw [if_pos hcond, hc]
      rw [e] at h1
      have hv : info = v := by simpa using congrArg Prod.fst h1
      have hs : s = s1 := by simpa using congrArg Prod.snd h1
      subst hv
      subst hs
      unfold read_info_from_bytes
      rw [if_pos hcond, hc]
  | none =>
      cases hp : env.parse B with
      | error err =>
          have e : read_info_from_bytes env s L B = (.error err, s.bumpParse) := by
            unfold read_info_from_bytes
            rw [if_pos hcond, hc]
            dsimp only
            rw [hp]
          rw [e] at h1
          exact absurd (congrArg Prod.fst h1) (by simp)
      | ok y =>
          have e : read_info_from_bytes env s L B
              = (.ok y, { s.bumpParse with info_cache := cacheInsert L y s.info_cache }) := by
            unfold read_info_from_bytes
            rw [if_pos hcond, hc]
            dsimp only
            rw [hp]
            dsimp only
            rw [if_pos hcond]
          rw [e] at h1
          have hv : y = v := by simpa using congrArg Prod.fst h1
          have hs : ({ s.bumpParse with
              info_cache := cacheInsert L y s.info_cache } : ReaderState) = s1 := by
            simpa using congrArg Prod.snd h1
          subst hv
          subst hs
          unfold read_info_from_bytes
          dsimp only [ReaderState.bumpParse]
          rw [if_pos hcond, cacheLookup_insert_self]

/-- C4 witness: locator `x.yaml`, first call parses `[5]` to `"five"`; the
second call with different bytes `[6]` returns `"five"` from the cache with
the state unchanged. -/
theorem read_info_from_bytes_cache_roundtrip_witness :
    read_info_from_bytes exEnv (read_info_from_bytes exEnv exState "x.yaml" [5]).2
        "x.yaml" [6]
      = (.ok (.str "five"), (read_info_from_bytes exEnv exState "x.yaml" [5]).2) :=
  read_info_from_bytes_cache_roundtrip exEnv exEnv exState "x.yaml" [5] [6] (.str "five")
    (read_info_from_bytes exEnv exState "x.yaml" [5]).2 rfl (by decide) rfl

/-- C4 counterexample: with the EMPTY locator (cache skipped), the second call
re-parses its own bytes and returns a different node — the claim's "for any
locator L" fails at `L = ""`. -/
theorem read_info_from_bytes_empty_locator_counterexample :
    (read_info_from_bytes exEnv exState "" [5]).1 = .ok (.str "five")
    ∧ (read_info_from_bytes exEnv (read_info_from_bytes exEnv exState "" [5]).2 "" [6]).1
        = .ok (.str "six")
    ∧ ((.ok (.str "six") : Except CompilerError Yaml) ≠ .ok (.str "five"))
    ∧ ((read_info_from_bytes exEnv (read_info_from_bytes exEnv exState "" [5]).2
          "" [6]).2).parse_count = 2 := by
  refine ⟨rfl, rfl, ?_, rfl⟩
  intro h
  injection h with h2
  injection h2 with h3
  exact absurd h3 (by decide)

/-- C1 (amended): when the fragment hits a missing key, `read_info_for_ref`
fails with `"could not resolve <reference>"` verbatim and caches `Yaml.null`
under the raw reference; a second identical call is then answered from the
cache — WITHOUT re-fetching or re-parsing (the state, counters included, is
unchanged) — but as the SUCCESS `Ok(null)`, not as the same failure. -/
theorem read_info_for_ref_missing_key_caches_null
    (env : Env) (s : ReaderState) (basefile reference p0 frag : String)
    (bytes : List Nat) (s1 : ReaderState) (info0 : Yaml) (s2 : ReaderState)
    (hen : s.info_cache_enabled = true)
    (hmiss : cacheLookup reference s.info_cache = none)
    (hsplit : splitRefOnHash reference = (p0, some frag))
    (hfrag : frag ≠ "")
    (hbytes : read_bytes_for_file env s (resolve_ref_locator basefile p0)
        = (.ok bytes, s1))
    (hinfo : read_info_from_bytes env s1 (resolve_ref_locator basefile p0) bytes
        = (.ok info0, s2))
    (hnav : navigateFragment frag info0 = .error .missingKey) :
    read_info_for_ref env s basefile reference
      = (.error (.simple ("could not resolve " ++ reference)),
         { s2 with info_cache := cacheInsert reference Yaml.null s2.info_cache })
    ∧ read_info_for_ref env
        { s2 with info_cache := cacheInsert reference Yaml.null s2.info_cache }
        basefile reference
      = (.ok Yaml.null,
         { s2 with info_cache := cacheInsert reference Yaml.null s2.info_cache }) := by
  constructor
  · unfold read_info_for_ref
    rw [if_pos hen, hmiss]
    simp only [hsplit, hbytes, hinfo]
    rw [if_pos hfrag, hnav, if_pos hen]
  · have hb := (read_bytes_for_file_info_fields env s (resolve_ref_locator basefile p0)).1
    rw [hbytes] at hb
    simp only at hb
    have hi := read_info_from_bytes_info_enabled env s1 (resolve_ref_locator basefile p0) bytes
    rw [hinfo] at hi
    simp only at hi
    have hen2 : s2.info_cache_enabled = true := by rw [hi, hb, hen]
    unfold read_info_for_ref
    dsimp only
    rw [if_pos hen2, cacheLookup_insert_self]

/-- C1 witness: the amended theorem at the concrete environment — a second
identical call after the `#/nope` failure returns `Ok(null)`. -/
theorem read_info_for_ref_missing_key_caches_null_witness :
    (read_info_for_ref exEnv ((read_info_for_ref exEnv exState "a.yaml" "#/nope").2)
        "a.yaml" "#/nope").1 = .ok Yaml.null := by
  have h := read_info_for_ref_missing_key_caches_null exEnv exState "a.yaml" "#/nope" ""
      "/nope" [7] (read_bytes_for_file exEnv exState "a.yaml").2
      (.map [(.str "defs", .str "x")])
      (read_info_from_bytes exEnv (read_bytes_for_file exEnv exState "a.yaml").2
         "a.yaml" [7]).2
      rfl rfl rfl (by decide) rfl rfl rfl
  rw [h.1]
  dsimp only
  rw [h.2]

/-- C1 counterexample: the first `#/nope` call fails with the verbatim
message, but the second identical call returns `Ok(null)` — a success, not
"that same failure". -/
theorem read_info_for_ref_second_call_not_failure :
    (read_info_for_ref exEnv exState "a.yaml" "#/nope").1
      = .error (.simple "could not resolve #/nope")
    ∧ (read_info_for_ref exEnv (read_info_for_ref exEnv exState "a.yaml" "#/nope").2
         "a.yaml" "#/nope").1 = .ok Yaml.null
    ∧ ((.ok Yaml.null : Except CompilerError Yaml)
         ≠ .error (.simple "could not resolve #/nope")) := by
  refine ⟨rfl, rfl, ?_⟩
  intro h
  exact Except.noConfusion h

/-- C2 (amended): of the two fragment-navigation failure cases, only the
missing-key case inserts a null node into the info cache under the raw
reference before failing with `"could not resolve <reference>"`; the
non-mapping case returns the same error WITHOUT touching the cache. -/
theorem read_info_for_ref_notMapping_no_cache
    (env : Env) (s : ReaderState) (basefile reference p0 frag : String)
    (bytes : List Nat) (s1 : ReaderState) (info0 : Yaml) (s2 : ReaderState)
    (hen : s.info_cache_enabled = true)
    (hmiss : cacheLookup reference s.info_cache = none)
    (hsplit : splitRefOnHash reference = (p0, some frag))
    (hfrag : frag ≠ "")
    (hbytes : read_bytes_for_file env s (resolve_ref_locator basefile p0)
        = (.ok bytes, s1))
    (hinfo : read_info_from_bytes env s1 (resolve_ref_locator basefile p0) bytes
        = (.ok info0, s2)) :
    (navigateFragment frag info0 = .error .missingKey →
        read_info_for_ref env s basefile reference
          = (.error (.simple ("could not resolve " ++ reference)),
             { s2 with info_cache := cacheInsert reference Yaml.null s2.info_cache }))
    ∧ (navigateFragment frag info0 = .error .notMapping →
        read_info_for_ref env s basefile reference
          = (.error (.simple ("could not resolve " ++ reference)), s2)) := by
  constructor
  · intro hnav
    unfold read_info_for_ref
    rw [if_pos hen, hmiss]
    simp only [hsplit, hbytes, hinfo]
    rw [if_pos hfrag, hnav, if_pos hen]
  · intro hnav
    unfold read_info_for_ref
    rw [if_pos hen, hmiss]
    simp only [hsplit, hbytes, hinfo]
    rw [if_pos hfrag, hnav]

/-- C2 witness: the amended theorem at the concrete environment — the
`#/defs/x2` reference descends into the scalar `"x"`, a non-mapping node, and
fails leaving the cache exactly as the fetch/parse left it. -/
theorem read_info_for_ref_notMapping_no_cache_witness :
    read_info_for_ref exEnv exState "a.yaml" "#/defs/x2"
      = (.error (.simple "could not resolve #/defs/x2"),
         (read_info_from_bytes exEnv (read_bytes_for_file exEnv exState "a.yaml").2
            "a.yaml" [7]).2) :=
  (read_info_for_ref_notMapping_no_cache exEnv exState "a.yaml" "#/defs/x2" "" "/defs/x2"
      [7] (read_bytes_for_file exEnv exState "a.yaml").2
      (.map [(.str "defs", .str "x")])
      (read_info_from_bytes exEnv (read_bytes_for_file exEnv exState "a.yaml").2
         "a.yaml" [7]).2
      rfl rfl rfl (by decide) rfl rfl).2 rfl

/-- C2 counterexample: after the non-mapping failure for `#/defs/x2`, the info
cache holds NO entry under the raw reference — in particular no null node was
inserted, contradicting the claim that both failure cases insert one. -/
theorem read_info_for_ref_notMapping_counterexample :
    (read_info_for_ref exEnv exState "a.yaml" "#/defs/x2").1
      = .error (.simple "could not resolve #/defs/x2")
    ∧ cacheLookup "#/defs/x2"
        ((read_info_for_ref exEnv exState "a.yaml" "#/defs/x2").2).info_cache = none := by
  exact ⟨rfl, rfl⟩

end Gnostic
